import Mathlib

/-!
Verification development for the Architech financial-projection engine
(`excelH.py`).  The monthly simulation loop and the annual aggregation are
embedded shallowly over exact rationals.  Following section 6 of the design
document, the per-tier / per-month rate tables, prices, seeds and cost
percentages are external configuration, so the engine is modelled as a
function of a `Config` record; the concrete tables hard-coded in the script
are one instance of that record.  Floating point is modelled by `ℚ` (the
script only ever divides behind explicit positivity guards, except for the
LTV:CAC cell, whose IEEE semantics is captured by the small `FV` type), and
the numpy `round` / `round(2)` calls are modelled by exact round-half-to-even.
-/

/-- Round-half-to-even to an integer, the rounding used by numpy `.round()`.
`Int.fdiv q.num q.den` is the floor of `q` since `q.den > 0`. -/
def roundHalfEvenInt (q : ℚ) : ℤ :=
  let n : ℤ := Int.fdiv q.num (q.den : ℤ)
  if q - (n : ℚ) < (1 : ℚ) / 2 then n
  else if (1 : ℚ) / 2 < q - (n : ℚ) then n + 1
  else if n % 2 = 0 then n else n + 1

/-- Model of pandas/numpy `.round()` (round to integer, ties to even). -/
def npRound (q : ℚ) : ℚ := (roundHalfEvenInt q : ℚ)

/-- Model of pandas/numpy `.round(2)` (round to 2 decimals, ties to even). -/
def npRound2 (q : ℚ) : ℚ := (roundHalfEvenInt (100 * q) : ℚ) / 100

/-- External configuration of the model: the rate tables, prices, seed
populations and cost percentages read by the monthly loop of `excelH.py`
(lines 104-258 of the source hard-code one such configuration).  Each table
is keyed by the month index `1..N`, as in the source dictionaries. -/
structure Config where
  initialFreeUsers : ℚ
  initialProUsers : ℚ
  initialLifetimeUsers : ℚ
  initialTeamUsers : ℚ
  initialEnterpriseUsers : ℚ
  newFreeUsersMonth1 : ℚ
  monthlyNewUserGrowthRate : ℕ → ℚ
  freeToProMonthlyRate : ℕ → ℚ
  freeToLifetimeMonthlyRate : ℕ → ℚ
  paidIndividualToTeamAcctMonthlyRate : ℕ → ℚ
  teamAcctToEnterpriseAcctMonthlyRate : ℕ → ℚ
  avgUsersPerTeamAccount : ℕ → ℚ
  avgUsersPerEnterpriseAccount : ℕ → ℚ
  churnFree : ℕ → ℚ
  churnPro : ℕ → ℚ
  churnLifetime : ℕ → ℚ
  churnTeam : ℕ → ℚ
  churnEnterprise : ℕ → ℚ
  expansionPro : ℕ → ℚ
  expansionLifetime : ℕ → ℚ
  expansionTeam : ℕ → ℚ
  expansionEnterprise : ℕ → ℚ
  monthlyPricePro : ℕ → ℚ
  monthlyPriceTeam : ℕ → ℚ
  annualPriceEnterprise : ℕ → ℚ
  oneTimeLicensePrice : ℕ → ℚ
  marketplaceCommissionRate : ℕ → ℚ
  avgMarketplacePurchasePerUserPerYear : ℕ → ℚ
  costEngineeringPct : ℕ → ℚ
  costProductDesignPct : ℕ → ℚ
  costMarketingPct : ℕ → ℚ
  costCustomerSuccessPct : ℕ → ℚ
  costInfrastructurePct : ℕ → ℚ
  costGAPct : ℕ → ℚ

/-- Start-of-month populations, i.e. the `Active * (Start)` columns fed into
one iteration of the monthly loop. -/
structure Starts where
  free : ℚ
  pro : ℚ
  lt : ℚ
  teamU : ℚ
  teamA : ℚ
  entU : ℚ
  entA : ℚ

/-- One row of the `df_monthly` table: the cells the loop stores for a month.
Stored values are exactly what the source writes into the DataFrame, i.e.
after the `.round()` / `.round(2)` calls where the source applies them. -/
structure Row where
  newFreeUsers : ℚ
  activeFreeStart : ℚ
  activeFreeEnd : ℚ
  freeChurn : ℚ
  convertedToPro : ℚ
  convertedToLifetime : ℚ
  convertedToTeamAccts : ℚ
  convertedToEnterpriseAccts : ℚ
  activeProStart : ℚ
  activeProEnd : ℚ
  proChurn : ℚ
  activeLifetimeStart : ℚ
  activeLifetimeEnd : ℚ
  lifetimeChurn : ℚ
  activeTeamUsersStart : ℚ
  activeTeamUsersEnd : ℚ
  teamChurn : ℚ
  activeTeamAcctsStart : ℚ
  activeTeamAcctsEnd : ℚ
  teamAcctChurn : ℚ
  activeEnterpriseUsersStart : ℚ
  activeEnterpriseUsersEnd : ℚ
  enterpriseChurn : ℚ
  activeEnterpriseAcctsStart : ℚ
  activeEnterpriseAcctsEnd : ℚ
  enterpriseAcctChurn : ℚ
  totalPaidUsersEnd : ℚ
  revenuePro : ℚ
  revenueTeam : ℚ
  revenueEnterprise : ℚ
  revenueOneTime : ℚ
  revenueMarketplace : ℚ
  totalRecurringRevenue : ℚ
  totalRevenue : ℚ
  costMarketing : ℚ
  totalOpex : ℚ
  grossProfit : ℚ
  ebitda : ℚ

/-- Body of the monthly simulation loop (source lines 302-489) for month `m`,
given start-of-month populations `s` and the raw (pre-rounding) number of new
Free users `newRaw`.  `ru` models `.round()` on user counts, `ra` models
`.round(2)` on account counts; the actual run instantiates them with
`npRound` / `npRound2`, the reference run of the numeric policy in the spec
instantiates both with `id`.  Raw intermediate quantities and the places the
source uses stored (rounded) versus raw values are transcribed one to one:
the Team-accounts end uses the stored 2-decimal conversion value (line 388)
while the Enterprise-accounts end uses the raw one (line 393); Team and
Enterprise user ends are derived from the not-yet-rounded account ends
(lines 396-399); revenue uses stored ends and starts (lines 429-462). -/
def computeRowAux (ru ra : ℚ → ℚ) (cfg : Config) (m : ℕ) (s : Starts) (newRaw : ℚ) : Row :=
  let freeChurnRaw := s.free * cfg.churnFree m
  let convertedToProRaw := s.free * cfg.freeToProMonthlyRate m
  let convertedToLifetimeRaw := s.free * cfg.freeToLifetimeMonthlyRate m
  let activeFreeEndRaw := s.free + newRaw - freeChurnRaw - convertedToProRaw - convertedToLifetimeRaw
  let proChurnRaw := s.pro * cfg.churnPro m
  let lifetimeChurnRaw := s.lt * cfg.churnLifetime m
  let teamChurnRaw := s.teamU * cfg.churnTeam m
  let enterpriseChurnRaw := s.entU * cfg.churnEnterprise m
  let teamAcctChurnRaw := s.teamA * cfg.churnTeam m
  let enterpriseAcctChurnRaw := s.entA * cfg.churnEnterprise m
  let activePaidIndividualStart := s.pro + s.lt
  let convertedToTeamAcctsRaw := activePaidIndividualStart * cfg.paidIndividualToTeamAcctMonthlyRate m
  let convertedToEnterpriseAcctsRaw := s.teamA * cfg.teamAcctToEnterpriseAcctMonthlyRate m
  let convertedToTeamAcctsStored := ra convertedToTeamAcctsRaw
  let activeProEndRaw := s.pro - proChurnRaw + convertedToProRaw -
    (if 0 < activePaidIndividualStart then
      convertedToTeamAcctsRaw * (s.pro / activePaidIndividualStart) else 0)
  let activeLifetimeEndRaw := s.lt - lifetimeChurnRaw + convertedToLifetimeRaw -
    (if 0 < activePaidIndividualStart then
      convertedToTeamAcctsRaw * (s.lt / activePaidIndividualStart) else 0)
  let activeTeamAcctsEndRaw :=
    s.teamA - teamAcctChurnRaw + convertedToTeamAcctsStored - convertedToEnterpriseAcctsRaw
  let activeEnterpriseAcctsEndRaw := s.entA - enterpriseAcctChurnRaw + convertedToEnterpriseAcctsRaw
  let activeTeamUsersEndRaw := activeTeamAcctsEndRaw * cfg.avgUsersPerTeamAccount m
  let activeEnterpriseUsersEndRaw := activeEnterpriseAcctsEndRaw * cfg.avgUsersPerEnterpriseAccount m
  let activeFreeEnd := ru activeFreeEndRaw
  let activeProEnd := ru activeProEndRaw
  let activeLifetimeEnd := ru activeLifetimeEndRaw
  let activeTeamUsersEnd := ru activeTeamUsersEndRaw
  let activeEnterpriseUsersEnd := ru activeEnterpriseUsersEndRaw
  let activeTeamAcctsEnd := ra activeTeamAcctsEndRaw
  let activeEnterpriseAcctsEnd := ra activeEnterpriseAcctsEndRaw
  let totalPaidUsersEnd :=
    activeProEnd + activeLifetimeEnd + activeTeamUsersEnd + activeEnterpriseUsersEnd
  let revenuePro :=
    (s.pro + activeProEnd) / 2 * cfg.monthlyPricePro m * (1 + cfg.expansionPro m)
  let revenueTeam :=
    (s.teamU + activeTeamUsersEnd) / 2 * cfg.monthlyPriceTeam m * (1 + cfg.expansionTeam m)
  let revenueEnterprise :=
    (s.entU + activeEnterpriseUsersEnd) / 2 * (cfg.annualPriceEnterprise m / 12) *
      (1 + cfg.expansionEnterprise m)
  let revenueOneTime := ru convertedToLifetimeRaw * cfg.oneTimeLicensePrice m
  let revenueMarketplace : ℚ := 0
  let totalRecurringRevenue := revenuePro + revenueTeam + revenueEnterprise
  let totalRevenue := totalRecurringRevenue + revenueOneTime + revenueMarketplace
  let costMarketing := totalRevenue * cfg.costMarketingPct m
  let totalOpex := totalRevenue *
    (cfg.costEngineeringPct m + cfg.costProductDesignPct m + cfg.costMarketingPct m +
      cfg.costCustomerSuccessPct m + cfg.costInfrastructurePct m + cfg.costGAPct m)
  let grossProfit := totalRevenue
  let ebitda := grossProfit - totalOpex
  { newFreeUsers := ru newRaw
    activeFreeStart := s.free
    activeFreeEnd := activeFreeEnd
    freeChurn := ru freeChurnRaw
    convertedToPro := ru convertedToProRaw
    convertedToLifetime := ru convertedToLifetimeRaw
    convertedToTeamAccts := convertedToTeamAcctsStored
    convertedToEnterpriseAccts := ra convertedToEnterpriseAcctsRaw
    activeProStart := s.pro
    activeProEnd := activeProEnd
    proChurn := ru proChurnRaw
    activeLifetimeStart := s.lt
    activeLifetimeEnd := activeLifetimeEnd
    lifetimeChurn := ru lifetimeChurnRaw
    activeTeamUsersStart := s.teamU
    activeTeamUsersEnd := activeTeamUsersEnd
    teamChurn := ru teamChurnRaw
    activeTeamAcctsStart := s.teamA
    activeTeamAcctsEnd := activeTeamAcctsEnd
    teamAcctChurn := ra teamAcctChurnRaw
    activeEnterpriseUsersStart := s.entU
    activeEnterpriseUsersEnd := activeEnterpriseUsersEnd
    enterpriseChurn := ru enterpriseChurnRaw
    activeEnterpriseAcctsStart := s.entA
    activeEnterpriseAcctsEnd := activeEnterpriseAcctsEnd
    enterpriseAcctChurn := ra enterpriseAcctChurnRaw
    totalPaidUsersEnd := totalPaidUsersEnd
    revenuePro := revenuePro
    revenueTeam := revenueTeam
    revenueEnterprise := revenueEnterprise
    revenueOneTime := revenueOneTime
    revenueMarketplace := revenueMarketplace
    totalRecurringRevenue := totalRecurringRevenue
    totalRevenue := totalRevenue
    costMarketing := costMarketing
    totalOpex := totalOpex
    grossProfit := grossProfit
    ebitda := ebitda }

/-- Start-of-month-1 populations (source lines 287-298): seed users, with
Team and Enterprise accounts derived from seed users divided by the month-1
average users per account (guarded), rounded to 2 decimals by `ra`. -/
def firstStartsAux (ra : ℚ → ℚ) (cfg : Config) : Starts :=
  { free := cfg.initialFreeUsers
    pro := cfg.initialProUsers
    lt := cfg.initialLifetimeUsers
    teamU := cfg.initialTeamUsers
    entU := cfg.initialEnterpriseUsers
    teamA := ra (if 0 < cfg.avgUsersPerTeamAccount 1 then
      cfg.initialTeamUsers / cfg.avgUsersPerTeamAccount 1 else 0)
    entA := ra (if 0 < cfg.avgUsersPerEnterpriseAccount 1 then
      cfg.initialEnterpriseUsers / cfg.avgUsersPerEnterpriseAccount 1 else 0) }

/-- Start-of-month populations copied from the stored end-of-month cells of
the previous row (source lines 308-315). -/
def endsToStarts (r : Row) : Starts :=
  { free := r.activeFreeEnd
    pro := r.activeProEnd
    lt := r.activeLifetimeEnd
    teamU := r.activeTeamUsersEnd
    teamA := r.activeTeamAcctsEnd
    entU := r.activeEnterpriseUsersEnd
    entA := r.activeEnterpriseAcctsEnd }

/-- The monthly table as a function of the month index (months are 1-based;
index 0 is never consulted by the annual layer and is mapped to month 1).
Month `m+2` starts from the stored row of month `m+1`, and its raw new-user
count compounds on the stored (rounded) previous count using the growth rate
of the previous month (source line 322 uses `growth.get(m-1, 0)`). -/
def monthRowAux (ru ra : ℚ → ℚ) (cfg : Config) : ℕ → Row
  | 0 => computeRowAux ru ra cfg 1 (firstStartsAux ra cfg) cfg.newFreeUsersMonth1
  | 1 => computeRowAux ru ra cfg 1 (firstStartsAux ra cfg) cfg.newFreeUsersMonth1
  | m + 2 =>
    let prev := monthRowAux ru ra cfg (m + 1)
    computeRowAux ru ra cfg (m + 2) (endsToStarts prev)
      (prev.newFreeUsers * (1 + cfg.monthlyNewUserGrowthRate (m + 1)))

/-- The monthly simulation as the source runs it: user counts rounded to
integers, account counts rounded to 2 decimals, at the end of every month. -/
def monthRow (cfg : Config) : ℕ → Row := monthRowAux npRound npRound2 cfg

/-- Modelled from the spec (numeric policy, section 4.1): the reference run
in which no intermediate quantity is ever rounded.  Used only to compare the
actual run against the refinement claimed by the spec. -/
def monthRowUnrounded (cfg : Config) : ℕ → Row := monthRowAux id id cfg

/-- Months belonging to the fiscal year of index `y` (0-based: `y = 0` is the
first model year), mirroring the filter selecting the rows of the DataFrame whose Year column equals the year. -/
def yearMonths (y : ℕ) : List ℕ := (List.range 12).map (fun i => 12 * y + i + 1)

/-- Last month of fiscal year `y` (`df_year_months.index.max()`). -/
def lastMonthOfYear (y : ℕ) : ℕ := 12 * y + 12

/-- Sum of one monthly column over the months of a year (`.sum()`). -/
def sumOverYear (cfg : Config) (y : ℕ) (f : Row → ℚ) : ℚ :=
  ((yearMonths y).map (fun m => f (monthRow cfg m))).sum

/-- Annual Pro subscription revenue (source line 538). -/
def revenueProYear (cfg : Config) (y : ℕ) : ℚ := sumOverYear cfg y Row.revenuePro

/-- Annual Team subscription revenue (source line 539). -/
def revenueTeamYear (cfg : Config) (y : ℕ) : ℚ := sumOverYear cfg y Row.revenueTeam

/-- Annual Enterprise subscription revenue (source line 540). -/
def revenueEnterpriseYear (cfg : Config) (y : ℕ) : ℚ := sumOverYear cfg y Row.revenueEnterprise

/-- Annual one-time license revenue (source line 541). -/
def revenueOneTimeYear (cfg : Config) (y : ℕ) : ℚ := sumOverYear cfg y Row.revenueOneTime

/-- Average paid users over the year: mean over the 12 months of the sum of
the four paid end-of-month user columns (source line 545). -/
def avgPaidUsersYear (cfg : Config) (y : ℕ) : ℚ :=
  sumOverYear cfg y (fun r =>
    r.activeProEnd + r.activeLifetimeEnd + r.activeTeamUsersEnd + r.activeEnterpriseUsersEnd) / 12

/-- Annual marketplace revenue: average paid users times purchase-per-user
times commission, both read at the last month of the year (lines 549-552). -/
def revenueMarketplaceYear (cfg : Config) (y : ℕ) : ℚ :=
  avgPaidUsersYear cfg y * cfg.avgMarketplacePurchasePerUserPerYear (lastMonthOfYear y) *
    cfg.marketplaceCommissionRate (lastMonthOfYear y)

/-- Total annual revenue (source line 555). -/
def totalRevenueYear (cfg : Config) (y : ℕ) : ℚ :=
  revenueProYear cfg y + revenueTeamYear cfg y + revenueEnterpriseYear cfg y +
    revenueOneTimeYear cfg y + revenueMarketplaceYear cfg y

/-- Sum of the monthly Gross Profit column over the year (numerator of the
Gross Margin cell, source line 579). -/
def grossProfitSumYear (cfg : Config) (y : ℕ) : ℚ := sumOverYear cfg y Row.grossProfit

/-- Annual EBITDA (source line 576). -/
def ebitdaYear (cfg : Config) (y : ℕ) : ℚ := sumOverYear cfg y Row.ebitda

/-- Underlying number of the Gross Margin cell (source line 579): the ratio
when annual revenue is positive, the number 0 otherwise. -/
def grossMarginQ (cfg : Config) (y : ℕ) : ℚ :=
  if 0 < totalRevenueYear cfg y then grossProfitSumYear cfg y / totalRevenueYear cfg y else 0

/-- Gross Margin cell of the annual summary, as a float cell (`none` models
NaN; this cell is always a number in the source). -/
def grossMarginYear (cfg : Config) (y : ℕ) : Option ℚ := some (grossMarginQ cfg y)

/-- Underlying number of the EBITDA Margin cell (source line 580). -/
def ebitdaMarginQ (cfg : Config) (y : ℕ) : ℚ :=
  if 0 < totalRevenueYear cfg y then ebitdaYear cfg y / totalRevenueYear cfg y else 0

/-- EBITDA Margin cell of the annual summary (`none` models NaN). -/
def ebitdaMarginYear (cfg : Config) (y : ℕ) : Option ℚ := some (ebitdaMarginQ cfg y)

/-- MRR of the last month of the year (source line 567). -/
def mrrEndYear (cfg : Config) (y : ℕ) : ℚ :=
  (monthRow cfg (lastMonthOfYear y)).totalRecurringRevenue

/-- Mean monthly MRR over the year (source line 569). -/
def mrrAvgYear (cfg : Config) (y : ℕ) : ℚ := sumOverYear cfg y Row.totalRecurringRevenue / 12

/-- Annual Sales and Marketing spend, taken as the Marketing and Community
cost column (source line 592). -/
def smOpexYear (cfg : Config) (y : ℕ) : ℚ := sumOverYear cfg y Row.costMarketing

/-- New paying customers of the year (source line 590): the sums of the
stored `Converted to Pro` and `Converted to Lifetime` columns, plus the sum
of the column named `Converted to Team Accts (from Free)` scaled by the
average team size.  That third column is referenced by line 590 but is absent
from `cols_monthly` (lines 267-283), so the source raises a KeyError here; it
is modelled as the all-zero column it would have been had it been declared
(the DataFrame is initialised to 0.0 and the column is never written). -/
def newPayingCustomersYear (cfg : Config) (y : ℕ) : ℚ :=
  sumOverYear cfg y Row.convertedToPro + sumOverYear cfg y Row.convertedToLifetime +
    0 * cfg.avgUsersPerTeamAccount (lastMonthOfYear y)

/-- Blended CAC cell (source line 593): S and M spend over new paying
customers, NaN (`none`) when the denominator is not positive. -/
def blendedCacYear (cfg : Config) (y : ℕ) : Option ℚ :=
  if 0 < newPayingCustomersYear cfg y then
    some (smOpexYear cfg y / newPayingCustomersYear cfg y) else none

/-- Paid users at the end of the year (source line 525). -/
def paidUsersEndYear (cfg : Config) (y : ℕ) : ℚ := (monthRow cfg (lastMonthOfYear y)).totalPaidUsersEnd

/-- ARPU cell (source line 616): end-of-year MRR annualised over end-of-year
paid users, NaN when there are no paid users. -/
def arpuYear (cfg : Config) (y : ℕ) : Option ℚ :=
  if 0 < paidUsersEndYear cfg y then
    some (mrrEndYear cfg y * 12 / paidUsersEndYear cfg y) else none

/-- Average recurring revenue per month of the year (source line 597): the
yearly MRR average divided by 12 when positive, else 0. -/
def avgRecurringRevenueMonthYear (cfg : Config) (y : ℕ) : ℚ :=
  if 0 < mrrAvgYear cfg y then mrrAvgYear cfg y / 12 else 0

/-- Average monthly ARPU of the year (source lines 600-603). -/
def arpuMonthlyAvgYear (cfg : Config) (y : ℕ) : ℚ :=
  if 0 < avgPaidUsersYear cfg y then
    avgRecurringRevenueMonthYear cfg y / avgPaidUsersYear cfg y else 0

/-- Monthly gross profit per paid user (source line 605). -/
def monthlyGrossProfitPerPaidUser (cfg : Config) (y : ℕ) : ℚ :=
  arpuMonthlyAvgYear cfg y * grossMarginQ cfg y

/-- CAC Payback cell (source line 607): CAC over the monthly gross profit per
paid user when that is positive, NaN otherwise (a NaN CAC propagates). -/
def cacPaybackYear (cfg : Config) (y : ℕ) : Option ℚ :=
  if 0 < monthlyGrossProfitPerPaidUser cfg y then
    (blendedCacYear cfg y).map (fun c => c / monthlyGrossProfitPerPaidUser cfg y) else none

/-- Total start-of-month paid users of month `m` (source line 635): Pro,
Team, Enterprise and Lifetime user starts. -/
def totPaidStartMonth (cfg : Config) (m : ℕ) : ℚ :=
  (monthRow cfg m).activeProStart + (monthRow cfg m).activeTeamUsersStart +
    (monthRow cfg m).activeEnterpriseUsersStart + (monthRow cfg m).activeLifetimeStart

/-- Numerator of the weighted monthly churn (source line 638). -/
def weightedChurnNumMonth (cfg : Config) (m : ℕ) : ℚ :=
  (monthRow cfg m).activeProStart * cfg.churnPro m +
    (monthRow cfg m).activeTeamUsersStart * cfg.churnTeam m +
    (monthRow cfg m).activeEnterpriseUsersStart * cfg.churnEnterprise m +
    (monthRow cfg m).activeLifetimeStart * cfg.churnLifetime m

/-- Numerator of the weighted monthly expansion (source line 639). -/
def weightedExpansionNumMonth (cfg : Config) (m : ℕ) : ℚ :=
  (monthRow cfg m).activeProStart * cfg.expansionPro m +
    (monthRow cfg m).activeTeamUsersStart * cfg.expansionTeam m +
    (monthRow cfg m).activeEnterpriseUsersStart * cfg.expansionEnterprise m +
    (monthRow cfg m).activeLifetimeStart * cfg.expansionLifetime m

/-- Weighted monthly churn rate (source lines 637-644): population-weighted
average over the paid tiers, NaN (`none`) when no paid users start the month. -/
def weightedChurnMonth (cfg : Config) (m : ℕ) : Option ℚ :=
  if 0 < totPaidStartMonth cfg m then
    some (weightedChurnNumMonth cfg m / totPaidStartMonth cfg m) else none

/-- Weighted monthly expansion rate (source lines 639-645). -/
def weightedExpansionMonth (cfg : Config) (m : ℕ) : Option ℚ :=
  if 0 < totPaidStartMonth cfg m then
    some (weightedExpansionNumMonth cfg m / totPaidStartMonth cfg m) else none

/-- Weighted monthly NRR (source lines 641-646): `1 - churn + expansion` when
the month has paid users, NaN otherwise. -/
def weightedNrrMonth (cfg : Config) (m : ℕ) : Option ℚ :=
  match weightedChurnMonth cfg m, weightedExpansionMonth cfg m with
  | some c, some e => some (1 - c + e)
  | _, _ => none

/-- Model of `np.nanmean`: mean of the non-NaN entries, NaN if all are NaN. -/
def nanmean (l : List (Option ℚ)) : Option ℚ :=
  let vs := l.filterMap id
  if vs.length = 0 then none else some (vs.sum / (vs.length : ℚ))

/-- Average weighted monthly churn of the year (source line 653, `np.nanmean`
over the twelve weighted monthly values). -/
def avgWeightedChurnYear (cfg : Config) (y : ℕ) : Option ℚ :=
  nanmean ((yearMonths y).map (weightedChurnMonth cfg))

/-- Average weighted monthly NRR of the year (source line 655). -/
def avgWeightedNrrYear (cfg : Config) (y : ℕ) : Option ℚ :=
  nanmean ((yearMonths y).map (weightedNrrMonth cfg))

/-- Approximate annual churn rate (source line 661): `1 - (1 - c)^12` from
the average weighted monthly churn, NaN-propagating. -/
def annualChurnYear (cfg : Config) (y : ℕ) : Option ℚ :=
  (avgWeightedChurnYear cfg y).map (fun c => 1 - (1 - c) ^ 12)

/-- LTV cell (source line 666): annual ARPU times gross margin over the
annualised churn when that is positive, NaN otherwise (NaN ARPU propagates). -/
def ltvYear (cfg : Config) (y : ℕ) : Option ℚ :=
  match annualChurnYear cfg y with
  | none => none
  | some a =>
    if 0 < a then (arpuYear cfg y).map (fun ar => ar * grossMarginQ cfg y / a) else none

/-- Minimal model of an IEEE double as produced by the one unguarded float
division of the annual summary (the LTV:CAC cell): a number, NaN, or a signed
infinity. -/
inductive FV where
  | num (q : ℚ)
  | nan
  | posInf
  | negInf
deriving DecidableEq

/-- Float division of two possibly-NaN cells, with the numpy semantics for a
zero divisor: `x / 0` is a signed infinity for nonzero `x` and NaN for `0/0`,
and NaN propagates through either operand. -/
def fdivOpt : Option ℚ → Option ℚ → FV
  | some a, some b =>
    if b = 0 then (if 0 < a then FV.posInf else if a < 0 then FV.negInf else FV.nan)
    else FV.num (a / b)
  | _, _ => FV.nan

/-- LTV:CAC cell (source line 669): LTV divided by CAC when CAC is not NaN,
NaN otherwise.  The division itself carries float semantics (`fdivOpt`). -/
def ltvOverCacYear (cfg : Config) (y : ℕ) : FV :=
  match blendedCacYear cfg y with
  | none => FV.nan
  | some c => fdivOpt (ltvYear cfg y) (some c)

/-- NRR cell (source lines 682-696): NaN for the first model year, otherwise
the average weighted monthly NRR of the year. -/
def nrrYear (cfg : Config) (y : ℕ) : Option ℚ :=
  if y = 0 then none else avgWeightedNrrYear cfg y

/-- Modelled from the spec (section 4.4 NRR): the revenue-share-weighted NRR
the claim asserts, for comparison against the code value.  Each tier is
weighted by its share of the recurring revenue contributed in the prior
period by cohorts existing before period `N`; the Lifetime tier contributes
no recurring revenue in this model, so its share is 0, and the rates are read
at the last month of period `N` (the comparison configuration uses
time-constant rates, so this reading is canonical). -/
def nrrSpecRevenueWeighted (cfg : Config) (y : ℕ) : Option ℚ :=
  if y = 0 then none else
    let pr := revenueProYear cfg (y - 1)
    let tr := revenueTeamYear cfg (y - 1)
    let er := revenueEnterpriseYear cfg (y - 1)
    let tot := pr + tr + er
    if tot = 0 then none else
      some ((pr * (1 - cfg.churnPro (lastMonthOfYear y) + cfg.expansionPro (lastMonthOfYear y)) +
        tr * (1 - cfg.churnTeam (lastMonthOfYear y) + cfg.expansionTeam (lastMonthOfYear y)) +
        er * (1 - cfg.churnEnterprise (lastMonthOfYear y) +
          cfg.expansionEnterprise (lastMonthOfYear y))) / tot)

/-- The column list `cols_monthly` of the monthly DataFrame, transcribed from
source lines 267-283. -/
def colsMonthly : List String :=
  ["Year", "Month",
   "New Free Users", "Active Free Users (Start)", "Active Free Users (End)", "Free Churn",
   "Converted to Pro", "Converted to Lifetime", "Converted to Team Accts (from Indiv Paid)",
   "Converted to Enterprise Accts (from Team Accts)",
   "Active Pro Users (Start)", "Active Pro Users (End)", "Pro Churn", "Pro Expansion Revenue",
   "Active Lifetime Users (Start)", "Active Lifetime Users (End)", "Lifetime Churn",
   "Lifetime Expansion Revenue",
   "Active Team Users (Start)", "Active Team Users (End)", "Team Churn", "Team Expansion Revenue",
   "Active Team Accounts (Start)", "Active Team Accounts (End)", "Team Acct Churn",
   "Team Acct Expansion Revenue",
   "Active Enterprise Users (Start)", "Active Enterprise Users (End)", "Enterprise Churn",
   "Enterprise Expansion Revenue",
   "Active Enterprise Accounts (Start)", "Active Enterprise Accounts (End)",
   "Enterprise Acct Churn", "Enterprise Acct Expansion Revenue",
   "Total Paid Users (End)",
   "Revenue - Pro Subscriptions", "Revenue - Team Subscriptions",
   "Revenue - Enterprise Subscriptions",
   "Revenue - One-time Licenses", "Revenue - Marketplace", "Total Recurring Revenue (MRR)",
   "Total Revenue (incl. One-time & MP)",
   "Cost - Engineering", "Cost - Product & Design", "Cost - Marketing & Community",
   "Cost - Customer Success", "Cost - Infrastructure", "Cost - G&A",
   "Total OpEx",
   "Gross Profit", "EBITDA"]

/-- The three columns the Blended CAC denominator sums at source line 590. -/
def blendedCacDenominatorCols : List String :=
  ["Converted to Pro", "Converted to Lifetime", "Converted to Team Accts (from Free)"]

/-- The all-zero configuration: every seed, volume, rate and price is 0. -/
def zeroConfig : Config :=
  { initialFreeUsers := 0, initialProUsers := 0, initialLifetimeUsers := 0
    initialTeamUsers := 0, initialEnterpriseUsers := 0, newFreeUsersMonth1 := 0
    monthlyNewUserGrowthRate := fun _ => 0
    freeToProMonthlyRate := fun _ => 0, freeToLifetimeMonthlyRate := fun _ => 0
    paidIndividualToTeamAcctMonthlyRate := fun _ => 0
    teamAcctToEnterpriseAcctMonthlyRate := fun _ => 0
    avgUsersPerTeamAccount := fun _ => 0, avgUsersPerEnterpriseAccount := fun _ => 0
    churnFree := fun _ => 0, churnPro := fun _ => 0, churnLifetime := fun _ => 0
    churnTeam := fun _ => 0, churnEnterprise := fun _ => 0
    expansionPro := fun _ => 0, expansionLifetime := fun _ => 0
    expansionTeam := fun _ => 0, expansionEnterprise := fun _ => 0
    monthlyPricePro := fun _ => 0, monthlyPriceTeam := fun _ => 0
    annualPriceEnterprise := fun _ => 0, oneTimeLicensePrice := fun _ => 0
    marketplaceCommissionRate := fun _ => 0
    avgMarketplacePurchasePerUserPerYear := fun _ => 0
    costEngineeringPct := fun _ => 0, costProductDesignPct := fun _ => 0
    costMarketingPct := fun _ => 0, costCustomerSuccessPct := fun _ => 0
    costInfrastructurePct := fun _ => 0, costGAPct := fun _ => 0 }

/-- Configuration for the C1 counterexample: a Team tier with 80 seed users
(8 per account in month 1, 10 per account afterwards), 10 percent monthly
Team churn, and no conversions, acquisition or other tiers. -/
def cfgC1 : Config :=
  { zeroConfig with
    initialTeamUsers := 80
    avgUsersPerTeamAccount := fun m => if m ≤ 1 then 8 else 10
    churnTeam := fun _ => 1/10 }

/-- Configuration for the C3 counterexample: 10 seed Free users and 25
percent monthly Free churn, nothing else. -/
def cfgC3 : Config :=
  { zeroConfig with
    initialFreeUsers := 10
    churnFree := fun _ => 1/4 }

/-- Configuration for the C4 counterexample: static Pro and Team tiers (no
churn, no conversions) with unequal prices, so population weights and revenue
weights differ; only Pro has expansion. -/
def cfgC4 : Config :=
  { zeroConfig with
    initialProUsers := 100
    initialTeamUsers := 100
    avgUsersPerTeamAccount := fun _ => 1
    avgUsersPerEnterpriseAccount := fun _ => 1
    monthlyPricePro := fun _ => 1
    monthlyPriceTeam := fun _ => 4
    expansionPro := fun _ => 1/50 }

/-- Configuration for the C6 witness: 100 seed Pro users at a constant 5
percent monthly churn. -/
def cfgC6 : Config :=
  { zeroConfig with
    initialProUsers := 100
    churnPro := fun _ => 1/20 }

/-- Configuration for the C8 counterexample: each Free outflow rate lies in
`[0, 1)` but the three together exceed 1 (0.5 churn, 0.4 to Pro, 0.4 to
Lifetime) over 1000 seed Free users. -/
def cfgC8bad : Config :=
  { zeroConfig with
    initialFreeUsers := 1000
    churnFree := fun _ => 1/2
    freeToProMonthlyRate := fun _ => 2/5
    freeToLifetimeMonthlyRate := fun _ => 2/5 }

/-- Configuration for the C9 counterexample: paying conversions happen (so
CAC is defined) but marketing spend is zero (so CAC is the number 0), while
LTV is a positive number. -/
def cfgC9 : Config :=
  { zeroConfig with
    initialFreeUsers := 1200
    initialProUsers := 100
    freeToProMonthlyRate := fun _ => 1/100
    churnPro := fun _ => 1/10
    monthlyPricePro := fun _ => 10 }

/-- Configuration for the C10 witness: a constant Pro tier generating
positive revenue and no marketplace revenue. -/
def cfgC10 : Config :=
  { zeroConfig with
    initialProUsers := 100
    monthlyPricePro := fun _ => 10 }

/-- Non-negativity of every population and revenue cell of a monthly row. -/
structure NonnegRow (r : Row) : Prop where
  nf : 0 ≤ r.newFreeUsers
  fs : 0 ≤ r.activeFreeStart
  fe : 0 ≤ r.activeFreeEnd
  fc : 0 ≤ r.freeChurn
  cp : 0 ≤ r.convertedToPro
  cl : 0 ≤ r.convertedToLifetime
  cta : 0 ≤ r.convertedToTeamAccts
  cea : 0 ≤ r.convertedToEnterpriseAccts
  ps : 0 ≤ r.activeProStart
  pe : 0 ≤ r.activeProEnd
  pc : 0 ≤ r.proChurn
  ls : 0 ≤ r.activeLifetimeStart
  le : 0 ≤ r.activeLifetimeEnd
  lc : 0 ≤ r.lifetimeChurn
  tus : 0 ≤ r.activeTeamUsersStart
  tue : 0 ≤ r.activeTeamUsersEnd
  tc : 0 ≤ r.teamChurn
  tas : 0 ≤ r.activeTeamAcctsStart
  tae : 0 ≤ r.activeTeamAcctsEnd
  tac : 0 ≤ r.teamAcctChurn
  eus : 0 ≤ r.activeEnterpriseUsersStart
  eue : 0 ≤ r.activeEnterpriseUsersEnd
  ec : 0 ≤ r.enterpriseChurn
  eas : 0 ≤ r.activeEnterpriseAcctsStart
  eae : 0 ≤ r.activeEnterpriseAcctsEnd
  eac : 0 ≤ r.enterpriseAcctChurn
  tp : 0 ≤ r.totalPaidUsersEnd
  rvp : 0 ≤ r.revenuePro
  rvt : 0 ≤ r.revenueTeam
  rve : 0 ≤ r.revenueEnterprise
  rvo : 0 ≤ r.revenueOneTime
  rvm : 0 ≤ r.revenueMarketplace
  mrr : 0 ≤ r.totalRecurringRevenue
  trev : 0 ≤ r.totalRevenue

/-- A non-adversarial rate configuration: all rates, averages and prices are
non-negative, and for each tier the competing outflow rates (churn plus
outgoing conversions) sum to at most 1. -/
structure ValidRates (cfg : Config) : Prop where
  cF : ∀ m, 0 ≤ cfg.churnFree m
  cP : ∀ m, 0 ≤ cfg.churnPro m
  cL : ∀ m, 0 ≤ cfg.churnLifetime m
  cT : ∀ m, 0 ≤ cfg.churnTeam m
  cE : ∀ m, 0 ≤ cfg.churnEnterprise m
  fp : ∀ m, 0 ≤ cfg.freeToProMonthlyRate m
  fl : ∀ m, 0 ≤ cfg.freeToLifetimeMonthlyRate m
  pt : ∀ m, 0 ≤ cfg.paidIndividualToTeamAcctMonthlyRate m
  te : ∀ m, 0 ≤ cfg.teamAcctToEnterpriseAcctMonthlyRate m
  eP : ∀ m, 0 ≤ cfg.expansionPro m
  eL : ∀ m, 0 ≤ cfg.expansionLifetime m
  eT : ∀ m, 0 ≤ cfg.expansionTeam m
  eE : ∀ m, 0 ≤ cfg.expansionEnterprise m
  gr : ∀ m, 0 ≤ cfg.monthlyNewUserGrowthRate m
  aT : ∀ m, 0 ≤ cfg.avgUsersPerTeamAccount m
  aE : ∀ m, 0 ≤ cfg.avgUsersPerEnterpriseAccount m
  pP : ∀ m, 0 ≤ cfg.monthlyPricePro m
  pT : ∀ m, 0 ≤ cfg.monthlyPriceTeam m
  pE : ∀ m, 0 ≤ cfg.annualPriceEnterprise m
  pO : ∀ m, 0 ≤ cfg.oneTimeLicensePrice m
  sF : ∀ m, cfg.churnFree m + cfg.freeToProMonthlyRate m + cfg.freeToLifetimeMonthlyRate m ≤ 1
  sP : ∀ m, cfg.churnPro m + cfg.paidIndividualToTeamAcctMonthlyRate m ≤ 1
  sL : ∀ m, cfg.churnLifetime m + cfg.paidIndividualToTeamAcctMonthlyRate m ≤ 1
  sT : ∀ m, cfg.churnTeam m + cfg.teamAcctToEnterpriseAcctMonthlyRate m ≤ 1
  sE : ∀ m, cfg.churnEnterprise m ≤ 1

/-- Non-negative seed populations and acquisition volume. -/
structure NonnegSeeds (cfg : Config) : Prop where
  f0 : 0 ≤ cfg.initialFreeUsers
  p0 : 0 ≤ cfg.initialProUsers
  l0 : 0 ≤ cfg.initialLifetimeUsers
  t0 : 0 ≤ cfg.initialTeamUsers
  e0 : 0 ≤ cfg.initialEnterpriseUsers
  n0 : 0 ≤ cfg.newFreeUsersMonth1

theorem roundHalfEvenInt_nonneg {q : ℚ} (h : 0 ≤ q) : 0 ≤ roundHalfEvenInt q := by
  have hn : 0 ≤ Int.fdiv q.num (q.den : ℤ) :=
    Int.fdiv_nonneg (Rat.num_nonneg.mpr h) (Int.natCast_nonneg _)
  simp only [roundHalfEvenInt]
  split_ifs <;> omega

theorem npRound_nonneg {q : ℚ} (h : 0 ≤ q) : 0 ≤ npRound q := by
  unfold npRound
  exact_mod_cast roundHalfEvenInt_nonneg h

theorem npRound2_nonneg {q : ℚ} (h : 0 ≤ q) : 0 ≤ npRound2 q := by
  unfold npRound2
  have h1 : 0 ≤ roundHalfEvenInt (100 * q) := roundHalfEvenInt_nonneg (by positivity)
  have h2 : (0 : ℚ) ≤ (roundHalfEvenInt (100 * q) : ℚ) := by exact_mod_cast h1
  exact div_nonneg h2 (by norm_num)

/-- C1 (amended): mass conservation holds, before end-of-period rounding,
for the Free, Pro and Lifetime user populations and for the Team and
Enterprise account populations. -/
theorem C1_mass_conservation_amended (ru ra : ℚ → ℚ) (cfg : Config) (m : ℕ) (s : Starts) (n : ℚ) :
    (computeRowAux ru ra cfg m s n).activeFreeEnd =
      ru (s.free - s.free * cfg.churnFree m -
        (s.free * cfg.freeToProMonthlyRate m + s.free * cfg.freeToLifetimeMonthlyRate m) + n) ∧
    (computeRowAux ru ra cfg m s n).activeProEnd =
      ru (s.pro - s.pro * cfg.churnPro m -
        (if 0 < s.pro + s.lt then
          (s.pro + s.lt) * cfg.paidIndividualToTeamAcctMonthlyRate m * (s.pro / (s.pro + s.lt))
         else 0) + s.free * cfg.freeToProMonthlyRate m) ∧
    (computeRowAux ru ra cfg m s n).activeLifetimeEnd =
      ru (s.lt - s.lt * cfg.churnLifetime m -
        (if 0 < s.pro + s.lt then
          (s.pro + s.lt) * cfg.paidIndividualToTeamAcctMonthlyRate m * (s.lt / (s.pro + s.lt))
         else 0) + s.free * cfg.freeToLifetimeMonthlyRate m) ∧
    (computeRowAux ru ra cfg m s n).activeTeamAcctsEnd =
      ra (s.teamA - s.teamA * cfg.churnTeam m -
        s.teamA * cfg.teamAcctToEnterpriseAcctMonthlyRate m +
        ra ((s.pro + s.lt) * cfg.paidIndividualToTeamAcctMonthlyRate m)) ∧
    (computeRowAux ru ra cfg m s n).activeEnterpriseAcctsEnd =
      ra (s.entA - s.entA * cfg.churnEnterprise m +
        s.teamA * cfg.teamAcctToEnterpriseAcctMonthlyRate m) ∧
    (computeRowAux ru ra cfg m s n).activeTeamUsersEnd =
      ru ((s.teamA - s.teamA * cfg.churnTeam m -
        s.teamA * cfg.teamAcctToEnterpriseAcctMonthlyRate m +
        ra ((s.pro + s.lt) * cfg.paidIndividualToTeamAcctMonthlyRate m)) *
          cfg.avgUsersPerTeamAccount m) ∧
    (computeRowAux ru ra cfg m s n).activeEnterpriseUsersEnd =
      ru ((s.entA - s.entA * cfg.churnEnterprise m +
        s.teamA * cfg.teamAcctToEnterpriseAcctMonthlyRate m) *
          cfg.avgUsersPerEnterpriseAccount m) := by
  refine ⟨?_, ?_, ?_, ?_, ?_, ?_, ?_⟩
  · rw [(rfl : (computeRowAux ru ra cfg m s n).activeFreeEnd =
      ru (s.free + n - s.free * cfg.churnFree m - s.free * cfg.freeToProMonthlyRate m -
        s.free * cfg.freeToLifetimeMonthlyRate m))]
    exact congrArg ru (by ring)
  · rw [(rfl : (computeRowAux ru ra cfg m s n).activeProEnd =
      ru (s.pro - s.pro * cfg.churnPro m + s.free * cfg.freeToProMonthlyRate m -
        (if 0 < s.pro + s.lt then
          (s.pro + s.lt) * cfg.paidIndividualToTeamAcctMonthlyRate m * (s.pro / (s.pro + s.lt))
         else 0)))]
    exact congrArg ru (by ring)
  · rw [(rfl : (computeRowAux ru ra cfg m s n).activeLifetimeEnd =
      ru (s.lt - s.lt * cfg.churnLifetime m + s.free * cfg.freeToLifetimeMonthlyRate m -
        (if 0 < s.pro + s.lt then
          (s.pro + s.lt) * cfg.paidIndividualToTeamAcctMonthlyRate m * (s.lt / (s.pro + s.lt))
         else 0)))]
    exact congrArg ru (by ring)
  · rw [(rfl : (computeRowAux ru ra cfg m s n).activeTeamAcctsEnd =
      ra (s.teamA - s.teamA * cfg.churnTeam m +
        ra ((s.pro + s.lt) * cfg.paidIndividualToTeamAcctMonthlyRate m) -
        s.teamA * cfg.teamAcctToEnterpriseAcctMonthlyRate m))]
    exact congrArg ra (by ring)
  · rw [(rfl : (computeRowAux ru ra cfg m s n).activeEnterpriseAcctsEnd =
      ra (s.entA - s.entA * cfg.churnEnterprise m +
        s.teamA * cfg.teamAcctToEnterpriseAcctMonthlyRate m))]
    exact congrArg ra (by ring)
  · rw [(rfl : (computeRowAux ru ra cfg m s n).activeTeamUsersEnd =
      ru ((s.teamA - s.teamA * cfg.churnTeam m +
        ra ((s.pro + s.lt) * cfg.paidIndividualToTeamAcctMonthlyRate m) -
        s.teamA * cfg.teamAcctToEnterpriseAcctMonthlyRate m) * cfg.avgUsersPerTeamAccount m))]
    exact congrArg ru (by ring)
  · rw [(rfl : (computeRowAux ru ra cfg m s n).activeEnterpriseUsersEnd =
      ru ((s.entA - s.entA * cfg.churnEnterprise m +
        s.teamA * cfg.teamAcctToEnterpriseAcctMonthlyRate m) *
          cfg.avgUsersPerEnterpriseAccount m))]
    exact congrArg ru (by ring)

/-- C1 (counterexample): at month 2 of `cfgC1` there are no conversions and
no acquisition, yet the Team user count ends at 81 from a start of 72 with a
churn of 7 (raw churn 7.2), because it is re-derived from accounts times the
new average of 10; the claimed conservation equation fails for it. -/
theorem C1_counterexample :
    (monthRow cfgC1 2).activeTeamUsersEnd = 81 ∧
    (monthRow cfgC1 2).activeTeamUsersStart = 72 ∧
    (monthRow cfgC1 2).teamChurn = 7 ∧
    cfgC1.churnTeam 2 = 1 / 10 ∧
    (monthRow cfgC1 2).convertedToTeamAccts = 0 ∧
    (monthRow cfgC1 2).convertedToEnterpriseAccts = 0 ∧
    (monthRow cfgC1 2).newFreeUsers = 0 ∧
    (monthRow cfgC1 2).activeTeamUsersEnd ≠
      (monthRow cfgC1 2).activeTeamUsersStart - (monthRow cfgC1 2).teamChurn ∧
    (monthRow cfgC1 2).activeTeamUsersEnd ≠
      (monthRow cfgC1 2).activeTeamUsersStart -
        (monthRow cfgC1 2).activeTeamUsersStart * cfgC1.churnTeam 2 := by
  decide!

/-- C2 (amended): when annual revenue is 0, the Gross Margin and EBITDA
Margin cells hold the number 0 (no exception), and the CAC Payback cell is
the not-applicable sentinel. -/
theorem C2_zero_revenue_amended (cfg : Config) (y : ℕ) (h : totalRevenueYear cfg y = 0) :
    grossMarginYear cfg y = some 0 ∧ ebitdaMarginYear cfg y = some 0 ∧
    cacPaybackYear cfg y = none := by
  have hq : grossMarginQ cfg y = 0 := by
    unfold grossMarginQ
    rw [h]
    norm_num
  refine ⟨?_, ?_, ?_⟩
  · unfold grossMarginYear
    rw [hq]
  · unfold ebitdaMarginYear ebitdaMarginQ
    rw [h]
    norm_num
  · unfold cacPaybackYear monthlyGrossProfitPerPaidUser
    rw [hq, mul_zero]
    norm_num

/-- C2 (counterexample): on the all-zero configuration the first-year
revenue is 0, yet the Gross Margin and EBITDA Margin cells are the number 0,
not the not-applicable sentinel the claim requires. -/
theorem C2_counterexample :
    totalRevenueYear zeroConfig 0 = 0 ∧
    grossMarginYear zeroConfig 0 = some 0 ∧
    ebitdaMarginYear zeroConfig 0 = some 0 ∧
    grossMarginYear zeroConfig 0 ≠ none ∧
    ebitdaMarginYear zeroConfig 0 ≠ none := by
  decide!

/-- C2 (witness): the amended claim applied to the all-zero configuration. -/
theorem C2_witness :
    grossMarginYear zeroConfig 0 = some 0 ∧ ebitdaMarginYear zeroConfig 0 = some 0 ∧
    cacPaybackYear zeroConfig 0 = none :=
  C2_zero_revenue_amended zeroConfig 0 (by decide!)

/-- C3 (amended): every month after the first starts from the stored
end-of-month cells of the previous month, which are the rounded values (the user
ends are integer-rounded and the account ends 2-decimal-rounded by the loop),
and the new-user acquisition compounds on the stored rounded previous count;
rounding therefore feeds back into the next period. -/
theorem C3_rounding_feedback_amended (cfg : Config) (m : ℕ) :
    (monthRow cfg (m + 2)).activeFreeStart = (monthRow cfg (m + 1)).activeFreeEnd ∧
    (monthRow cfg (m + 2)).activeProStart = (monthRow cfg (m + 1)).activeProEnd ∧
    (monthRow cfg (m + 2)).activeLifetimeStart = (monthRow cfg (m + 1)).activeLifetimeEnd ∧
    (monthRow cfg (m + 2)).activeTeamUsersStart = (monthRow cfg (m + 1)).activeTeamUsersEnd ∧
    (monthRow cfg (m + 2)).activeTeamAcctsStart = (monthRow cfg (m + 1)).activeTeamAcctsEnd ∧
    (monthRow cfg (m + 2)).activeEnterpriseUsersStart =
      (monthRow cfg (m + 1)).activeEnterpriseUsersEnd ∧
    (monthRow cfg (m + 2)).activeEnterpriseAcctsStart =
      (monthRow cfg (m + 1)).activeEnterpriseAcctsEnd ∧
    (monthRow cfg (m + 2)).newFreeUsers =
      npRound ((monthRow cfg (m + 1)).newFreeUsers *
        (1 + cfg.monthlyNewUserGrowthRate (m + 1))) :=
  ⟨rfl, rfl, rfl, rfl, rfl, rfl, rfl, rfl⟩

/-- C3 (counterexample): with 10 seed Free users and 25 percent Free churn,
month 1 ends at 7.5 Free users, stored rounded as 8; month 2 of the actual
run starts from 8, while the never-rounded reference run starts from 7.5, so
the run does not equal the unrounded reference run. -/
theorem C3_counterexample :
    (monthRow cfgC3 1).activeFreeEnd = 8 ∧
    (monthRowUnrounded cfgC3 1).activeFreeEnd = 15 / 2 ∧
    (monthRow cfgC3 2).activeFreeStart = 8 ∧
    (monthRowUnrounded cfgC3 2).activeFreeStart = 15 / 2 ∧
    (monthRow cfgC3 2).activeFreeStart ≠ (monthRowUnrounded cfgC3 2).activeFreeStart := by
  decide!

/-- C4 (amended): the reported NRR is the not-applicable sentinel for the
first year, and for every later year it is the nanmean, over the months of
that year, of `1 - weightedChurn + weightedExpansion`, in which the weights are
the start-of-month active paid user counts of the four paid tiers, not
revenue shares. -/
theorem C4_nrr_amended (cfg : Config) (y m : ℕ) :
    nrrYear cfg 0 = none ∧
    weightedNrrMonth cfg m =
      (if 0 < (monthRow cfg m).activeProStart + (monthRow cfg m).activeTeamUsersStart +
          (monthRow cfg m).activeEnterpriseUsersStart + (monthRow cfg m).activeLifetimeStart then
        some (1 -
          ((monthRow cfg m).activeProStart * cfg.churnPro m +
            (monthRow cfg m).activeTeamUsersStart * cfg.churnTeam m +
            (monthRow cfg m).activeEnterpriseUsersStart * cfg.churnEnterprise m +
            (monthRow cfg m).activeLifetimeStart * cfg.churnLifetime m) /
            ((monthRow cfg m).activeProStart + (monthRow cfg m).activeTeamUsersStart +
              (monthRow cfg m).activeEnterpriseUsersStart +
              (monthRow cfg m).activeLifetimeStart) +
          ((monthRow cfg m).activeProStart * cfg.expansionPro m +
            (monthRow cfg m).activeTeamUsersStart * cfg.expansionTeam m +
            (monthRow cfg m).activeEnterpriseUsersStart * cfg.expansionEnterprise m +
            (monthRow cfg m).activeLifetimeStart * cfg.expansionLifetime m) /
            ((monthRow cfg m).activeProStart + (monthRow cfg m).activeTeamUsersStart +
              (monthRow cfg m).activeEnterpriseUsersStart +
              (monthRow cfg m).activeLifetimeStart))
       else none) ∧
    nrrYear cfg (y + 1) = nanmean ((yearMonths (y + 1)).map (weightedNrrMonth cfg)) := by
  refine ⟨rfl, ?_, rfl⟩
  by_cases hpos : 0 < totPaidStartMonth cfg m
  · simp only [weightedNrrMonth, weightedChurnMonth, weightedExpansionMonth, totPaidStartMonth,
      weightedChurnNumMonth, weightedExpansionNumMonth] at hpos ⊢
    rw [if_pos hpos, if_pos hpos, if_pos hpos]
  · simp only [weightedNrrMonth, weightedChurnMonth, weightedExpansionMonth, totPaidStartMonth,
      weightedChurnNumMonth, weightedExpansionNumMonth] at hpos ⊢
    rw [if_neg hpos, if_neg hpos, if_neg hpos]

/-- C4 (counterexample): on `cfgC4` the second model year has constant
populations of 100 Pro and 100 Team users with Pro revenue share 1224/6024
and Team share 4800/6024; the claimed revenue-share-weighted formula gives
12601/12550 while the code reports the population-weighted 101/100. -/
theorem C4_counterexample :
    nrrYear cfgC4 1 = some (101 / 100) ∧
    nrrSpecRevenueWeighted cfgC4 1 = some (12601 / 12550) ∧
    nrrYear cfgC4 1 ≠ nrrSpecRevenueWeighted cfgC4 1 := by
  decide!

/-- C5 (code bug): the Blended CAC denominator at source line 590 sums the
columns `Converted to Pro`, `Converted to Lifetime` and `Converted to Team
Accts (from Free)`, but the last of these is not among the declared columns
of the monthly DataFrame, so the source raises a KeyError on every annual
aggregation instead of computing the claimed ratio. -/
theorem C5_missing_cac_column :
    "Converted to Team Accts (from Free)" ∈ blendedCacDenominatorCols ∧
    "Converted to Team Accts (from Free)" ∉ colsMonthly ∧
    "Converted to Pro" ∈ colsMonthly ∧
    "Converted to Lifetime" ∈ colsMonthly ∧
    "Converted to Team Accts (from Indiv Paid)" ∈ colsMonthly := by
  decide!

/-- C6: when the average weighted monthly churn of a year is a positive
number `c` at most 1, the annualised churn is `1 - (1 - c)^12`, it is
positive, and the LTV cell is annual ARPU times the gross margin fraction
divided by it (a NaN ARPU propagates); when the average weighted monthly
churn is zero, the LTV cell is the infinite/undefined sentinel. -/
theorem C6_ltv (cfg : Config) (y : ℕ) (c : ℚ) :
    (avgWeightedChurnYear cfg y = some c → 0 < c → c ≤ 1 →
      annualChurnYear cfg y = some (1 - (1 - c) ^ 12) ∧
      0 < 1 - (1 - c) ^ 12 ∧
      ltvYear cfg y =
        (arpuYear cfg y).map (fun ar => ar * grossMarginQ cfg y / (1 - (1 - c) ^ 12))) ∧
    (avgWeightedChurnYear cfg y = some 0 → ltvYear cfg y = none) := by
  constructor
  · intro h hc hc1
    have hpow : (1 - c) ^ 12 < 1 := pow_lt_one₀ (by linarith) (by linarith) (by norm_num)
    have hch : annualChurnYear cfg y = some (1 - (1 - c) ^ 12) := by
      unfold annualChurnYear
      rw [h]
      rfl
    refine ⟨hch, by linarith, ?_⟩
    unfold ltvYear
    rw [hch]
    simp only []
    rw [if_pos (by linarith)]
  · intro h
    have hch : annualChurnYear cfg y = some 0 := by
      unfold annualChurnYear
      rw [h]
      norm_num
    unfold ltvYear
    rw [hch]
    simp only []
    rw [if_neg (by norm_num)]

/-- C6 (witness): on `cfgC6` the first-year average weighted monthly churn
is 1/20, and the theorem yields the annualised churn cell. -/
theorem C6_witness :
    avgWeightedChurnYear cfgC6 0 = some (1 / 20) ∧
    annualChurnYear cfgC6 0 = some (1 - (1 - 1 / 20) ^ 12) := by
  have h : avgWeightedChurnYear cfgC6 0 = some (1 / 20) := by decide!
  exact ⟨h, ((C6_ltv cfgC6 0 (1 / 20)).1 h (by norm_num) (by norm_num)).1⟩

theorem filterMap_id_map_ite {p : ℕ → Prop} [DecidablePred p] (f : ℕ → ℚ) :
    ∀ l : List ℕ, (l.map (fun a => if p a then some (f a) else none)).filterMap id =
      (l.filter (fun a => p a)).map f
  | [] => by simp
  | a :: t => by
    by_cases h : p a
    · simp [h, filterMap_id_map_ite f t]
    · simp [h, filterMap_id_map_ite f t]

/-- C7: the weighted monthly churn is the start-population-weighted average
of the paid-tier churn rates when the total paid start population is
positive, and the undefined sentinel (not 0) otherwise; the annual average is
the mean over exactly the months with positive paid population, so sentinel
months do not poison it. -/
theorem C7_weighted_churn (cfg : Config) (m y : ℕ) :
    weightedChurnMonth cfg m =
      (if 0 < (monthRow cfg m).activeProStart + (monthRow cfg m).activeTeamUsersStart +
          (monthRow cfg m).activeEnterpriseUsersStart + (monthRow cfg m).activeLifetimeStart then
        some (((monthRow cfg m).activeProStart * cfg.churnPro m +
          (monthRow cfg m).activeTeamUsersStart * cfg.churnTeam m +
          (monthRow cfg m).activeEnterpriseUsersStart * cfg.churnEnterprise m +
          (monthRow cfg m).activeLifetimeStart * cfg.churnLifetime m) /
          ((monthRow cfg m).activeProStart + (monthRow cfg m).activeTeamUsersStart +
            (monthRow cfg m).activeEnterpriseUsersStart +
            (monthRow cfg m).activeLifetimeStart))
       else none) ∧
    avgWeightedChurnYear cfg y =
      (if ((yearMonths y).filter (fun mm => 0 < totPaidStartMonth cfg mm)).length = 0 then none
       else some
        ((((yearMonths y).filter (fun mm => 0 < totPaidStartMonth cfg mm)).map
            (fun mm => weightedChurnNumMonth cfg mm / totPaidStartMonth cfg mm)).sum /
          ((((yearMonths y).filter
              (fun mm => 0 < totPaidStartMonth cfg mm)).length : ℕ) : ℚ))) := by
  constructor
  · rfl
  · unfold avgWeightedChurnYear nanmean
    rw [show (yearMonths y).map (weightedChurnMonth cfg) =
      (yearMonths y).map (fun mm => if 0 < totPaidStartMonth cfg mm then
        some (weightedChurnNumMonth cfg mm / totPaidStartMonth cfg mm) else none) from rfl]
    rw [filterMap_id_map_ite]
    simp only [List.length_map]

theorem computeRow_nonneg (cfg : Config) (m : ℕ) (s : Starts) (n : ℚ) (hv : ValidRates cfg)
    (h1 : 0 ≤ s.free) (h2 : 0 ≤ s.pro) (h3 : 0 ≤ s.lt) (h4 : 0 ≤ s.teamU) (h5 : 0 ≤ s.teamA)
    (h6 : 0 ≤ s.entU) (h7 : 0 ≤ s.entA) (hn : 0 ≤ n) :
    NonnegRow (computeRowAux npRound npRound2 cfg m s n) := by
  have hfreeEndRaw : 0 ≤ s.free + n - s.free * cfg.churnFree m -
      s.free * cfg.freeToProMonthlyRate m - s.free * cfg.freeToLifetimeMonthlyRate m := by
    have key : 0 ≤ s.free * (1 - (cfg.churnFree m + cfg.freeToProMonthlyRate m +
        cfg.freeToLifetimeMonthlyRate m)) := mul_nonneg h1 (by linarith [hv.sF m])
    nlinarith [key, hn]
  have hproEndRaw : 0 ≤ s.pro - s.pro * cfg.churnPro m + s.free * cfg.freeToProMonthlyRate m -
      (if 0 < s.pro + s.lt then
        (s.pro + s.lt) * cfg.paidIndividualToTeamAcctMonthlyRate m * (s.pro / (s.pro + s.lt))
       else 0) := by
    by_cases hpi : 0 < s.pro + s.lt
    · rw [if_pos hpi]
      have hne : s.pro + s.lt ≠ 0 := ne_of_gt hpi
      have hrw : (s.pro + s.lt) * cfg.paidIndividualToTeamAcctMonthlyRate m *
          (s.pro / (s.pro + s.lt)) = cfg.paidIndividualToTeamAcctMonthlyRate m * s.pro := by
        field_simp
        ring
      rw [hrw]
      have key : 0 ≤ s.pro * (1 - (cfg.churnPro m +
          cfg.paidIndividualToTeamAcctMonthlyRate m)) := mul_nonneg h2 (by linarith [hv.sP m])
      nlinarith [key, mul_nonneg h1 (hv.fp m)]
    · rw [if_neg hpi]
      have hp0 : s.pro = 0 := by
        push_neg at hpi
        linarith
      rw [hp0]
      nlinarith [mul_nonneg h1 (hv.fp m)]
  have hltEndRaw : 0 ≤ s.lt - s.lt * cfg.churnLifetime m +
      s.free * cfg.freeToLifetimeMonthlyRate m -
      (if 0 < s.pro + s.lt then
        (s.pro + s.lt) * cfg.paidIndividualToTeamAcctMonthlyRate m * (s.lt / (s.pro + s.lt))
       else 0) := by
    by_cases hpi : 0 < s.pro + s.lt
    · rw [if_pos hpi]
      have hne : s.pro + s.lt ≠ 0 := ne_of_gt hpi
      have hrw : (s.pro + s.lt) * cfg.paidIndividualToTeamAcctMonthlyRate m *
          (s.lt / (s.pro + s.lt)) = cfg.paidIndividualToTeamAcctMonthlyRate m * s.lt := by
        field_simp
        ring
      rw [hrw]
      have key : 0 ≤ s.lt * (1 - (cfg.churnLifetime m +
          cfg.paidIndividualToTeamAcctMonthlyRate m)) := mul_nonneg h3 (by linarith [hv.sL m])
      nlinarith [key, mul_nonneg h1 (hv.fl m)]
    · rw [if_neg hpi]
      have hl0 : s.lt = 0 := by
        push_neg at hpi
        linarith
      rw [hl0]
      nlinarith [mul_nonneg h1 (hv.fl m)]
  have hcta : 0 ≤ npRound2 ((s.pro + s.lt) * cfg.paidIndividualToTeamAcctMonthlyRate m) :=
    npRound2_nonneg (mul_nonneg (add_nonneg h2 h3) (hv.pt m))
  have hteamAEndRaw : 0 ≤ s.teamA - s.teamA * cfg.churnTeam m +
      npRound2 ((s.pro + s.lt) * cfg.paidIndividualToTeamAcctMonthlyRate m) -
      s.teamA * cfg.teamAcctToEnterpriseAcctMonthlyRate m := by
    have key : 0 ≤ s.teamA * (1 - (cfg.churnTeam m +
        cfg.teamAcctToEnterpriseAcctMonthlyRate m)) := mul_nonneg h5 (by linarith [hv.sT m])
    nlinarith [key, hcta]
  have hentAEndRaw : 0 ≤ s.entA - s.entA * cfg.churnEnterprise m +
      s.teamA * cfg.teamAcctToEnterpriseAcctMonthlyRate m := by
    have key : 0 ≤ s.entA * (1 - cfg.churnEnterprise m) :=
      mul_nonneg h7 (by linarith [hv.sE m])
    nlinarith [key, mul_nonneg h5 (hv.te m)]
  have hfe : 0 ≤ npRound (s.free + n - s.free * cfg.churnFree m -
      s.free * cfg.freeToProMonthlyRate m - s.free * cfg.freeToLifetimeMonthlyRate m) :=
    npRound_nonneg hfreeEndRaw
  have hpe : 0 ≤ npRound (s.pro - s.pro * cfg.churnPro m + s.free * cfg.freeToProMonthlyRate m -
      (if 0 < s.pro + s.lt then
        (s.pro + s.lt) * cfg.paidIndividualToTeamAcctMonthlyRate m * (s.pro / (s.pro + s.lt))
       else 0)) := npRound_nonneg hproEndRaw
  have hle : 0 ≤ npRound (s.lt - s.lt * cfg.churnLifetime m +
      s.free * cfg.freeToLifetimeMonthlyRate m -
      (if 0 < s.pro + s.lt then
        (s.pro + s.lt) * cfg.paidIndividualToTeamAcctMonthlyRate m * (s.lt / (s.pro + s.lt))
       else 0)) := npRound_nonneg hltEndRaw
  have htue : 0 ≤ npRound ((s.teamA - s.teamA * cfg.churnTeam m +
      npRound2 ((s.pro + s.lt) * cfg.paidIndividualToTeamAcctMonthlyRate m) -
      s.teamA * cfg.teamAcctToEnterpriseAcctMonthlyRate m) * cfg.avgUsersPerTeamAccount m) :=
    npRound_nonneg (mul_nonneg hteamAEndRaw (hv.aT m))
  have heue : 0 ≤ npRound ((s.entA - s.entA * cfg.churnEnterprise m +
      s.teamA * cfg.teamAcctToEnterpriseAcctMonthlyRate m) *
      cfg.avgUsersPerEnterpriseAccount m) :=
    npRound_nonneg (mul_nonneg hentAEndRaw (hv.aE m))
  have hrvp : 0 ≤ (s.pro + npRound (s.pro - s.pro * cfg.churnPro m +
      s.free * cfg.freeToProMonthlyRate m -
      (if 0 < s.pro + s.lt then
        (s.pro + s.lt) * cfg.paidIndividualToTeamAcctMonthlyRate m * (s.pro / (s.pro + s.lt))
       else 0))) / 2 * cfg.monthlyPricePro m * (1 + cfg.expansionPro m) :=
    mul_nonneg (mul_nonneg (div_nonneg (add_nonneg h2 hpe) (by norm_num)) (hv.pP m))
      (by linarith [hv.eP m])
  have hrvt : 0 ≤ (s.teamU + npRound ((s.teamA - s.teamA * cfg.churnTeam m +
      npRound2 ((s.pro + s.lt) * cfg.paidIndividualToTeamAcctMonthlyRate m) -
      s.teamA * cfg.teamAcctToEnterpriseAcctMonthlyRate m) * cfg.avgUsersPerTeamAccount m)) /
      2 * cfg.monthlyPriceTeam m * (1 + cfg.expansionTeam m) :=
    mul_nonneg (mul_nonneg (div_nonneg (add_nonneg h4 htue) (by norm_num)) (hv.pT m))
      (by linarith [hv.eT m])
  have hrve : 0 ≤ (s.entU + npRound ((s.entA - s.entA * cfg.churnEnterprise m +
      s.teamA * cfg.teamAcctToEnterpriseAcctMonthlyRate m) *
      cfg.avgUsersPerEnterpriseAccount m)) / 2 * (cfg.annualPriceEnterprise m / 12) *
      (1 + cfg.expansionEnterprise m) :=
    mul_nonneg (mul_nonneg (div_nonneg (add_nonneg h6 heue) (by norm_num))
      (div_nonneg (hv.pE m) (by norm_num))) (by linarith [hv.eE m])
  have hrvo : 0 ≤ npRound (s.free * cfg.freeToLifetimeMonthlyRate m) *
      cfg.oneTimeLicensePrice m :=
    mul_nonneg (npRound_nonneg (mul_nonneg h1 (hv.fl m))) (hv.pO m)
  exact
    { nf := npRound_nonneg hn
      fs := h1
      fe := hfe
      fc := npRound_nonneg (mul_nonneg h1 (hv.cF m))
      cp := npRound_nonneg (mul_nonneg h1 (hv.fp m))
      cl := npRound_nonneg (mul_nonneg h1 (hv.fl m))
      cta := hcta
      cea := npRound2_nonneg (mul_nonneg h5 (hv.te m))
      ps := h2
      pe := hpe
      pc := npRound_nonneg (mul_nonneg h2 (hv.cP m))
      ls := h3
      le := hle
      lc := npRound_nonneg (mul_nonneg h3 (hv.cL m))
      tus := h4
      tue := htue
      tc := npRound_nonneg (mul_nonneg h4 (hv.cT m))
      tas := h5
      tae := npRound2_nonneg hteamAEndRaw
      tac := npRound2_nonneg (mul_nonneg h5 (hv.cT m))
      eus := h6
      eue := heue
      ec := npRound_nonneg (mul_nonneg h6 (hv.cE m))
      eas := h7
      eae := npRound2_nonneg hentAEndRaw
      eac := npRound2_nonneg (mul_nonneg h7 (hv.cE m))
      tp := add_nonneg (add_nonneg (add_nonneg hpe hle) htue) heue
      rvp := hrvp
      rvt := hrvt
      rve := hrve
      rvo := hrvo
      rvm := le_refl 0
      mrr := add_nonneg (add_nonneg hrvp hrvt) hrve
      trev := add_nonneg (add_nonneg (add_nonneg (add_nonneg hrvp hrvt) hrve) hrvo) (le_refl 0) }

/-- C8 (amended): under a configuration whose rates are non-negative with
per-tier outflow sums at most 1 (and non-negative averages, prices and growth
rates) and whose seed populations and acquisition volume are non-negative,
every population and revenue cell of every month is non-negative. -/
theorem C8_nonneg_amended (cfg : Config) (hv : ValidRates cfg) (hi : NonnegSeeds cfg) :
    ∀ m, NonnegRow (monthRow cfg m)
  | 0 => by
    have hteamA : 0 ≤ (firstStartsAux npRound2 cfg).teamA := npRound2_nonneg (by
      split_ifs with h
      · exact div_nonneg hi.t0 (le_of_lt h)
      · exact le_refl 0)
    have hentA : 0 ≤ (firstStartsAux npRound2 cfg).entA := npRound2_nonneg (by
      split_ifs with h
      · exact div_nonneg hi.e0 (le_of_lt h)
      · exact le_refl 0)
    exact computeRow_nonneg cfg 1 (firstStartsAux npRound2 cfg) cfg.newFreeUsersMonth1 hv
      hi.f0 hi.p0 hi.l0 hi.t0 hteamA hi.e0 hentA hi.n0
  | 1 => by
    have hteamA : 0 ≤ (firstStartsAux npRound2 cfg).teamA := npRound2_nonneg (by
      split_ifs with h
      · exact div_nonneg hi.t0 (le_of_lt h)
      · exact le_refl 0)
    have hentA : 0 ≤ (firstStartsAux npRound2 cfg).entA := npRound2_nonneg (by
      split_ifs with h
      · exact div_nonneg hi.e0 (le_of_lt h)
      · exact le_refl 0)
    exact computeRow_nonneg cfg 1 (firstStartsAux npRound2 cfg) cfg.newFreeUsersMonth1 hv
      hi.f0 hi.p0 hi.l0 hi.t0 hteamA hi.e0 hentA hi.n0
  | k + 2 => by
    have hp := C8_nonneg_amended cfg hv hi (k + 1)
    exact computeRow_nonneg cfg (k + 2) (endsToStarts (monthRow cfg (k + 1)))
      ((monthRow cfg (k + 1)).newFreeUsers * (1 + cfg.monthlyNewUserGrowthRate (k + 1)))
      hv hp.fe hp.pe hp.le hp.tue hp.tae hp.eue hp.eae
      (mul_nonneg hp.nf (by linarith [hv.gr (k + 1)]))

/-- C8 (witness): the amended claim applied to the all-zero configuration at
month 3. -/
theorem C8_witness : NonnegRow (monthRow zeroConfig 3) := by
  have hv : ValidRates zeroConfig := by
    constructor <;> intro mm <;> simp [zeroConfig]
  have hi : NonnegSeeds zeroConfig := by
    constructor <;> simp [zeroConfig]
  exact C8_nonneg_amended zeroConfig hv hi 3

/-- C8 (counterexample): on `cfgC8bad` every churn, conversion and expansion
rate lies in `[0, 1)` and all seeds, volumes and prices are non-negative, yet
the month-1 Free population cell is -300. -/
theorem C8_counterexample :
    (0 ≤ cfgC8bad.churnFree 1 ∧ cfgC8bad.churnFree 1 < 1) ∧
    (0 ≤ cfgC8bad.freeToProMonthlyRate 1 ∧ cfgC8bad.freeToProMonthlyRate 1 < 1) ∧
    (0 ≤ cfgC8bad.freeToLifetimeMonthlyRate 1 ∧ cfgC8bad.freeToLifetimeMonthlyRate 1 < 1) ∧
    (0 ≤ cfgC8bad.initialFreeUsers ∧ 0 ≤ cfgC8bad.newFreeUsersMonth1) ∧
    (monthRow cfgC8bad 1).activeFreeEnd = -300 ∧
    (monthRow cfgC8bad 1).activeFreeEnd < 0 := by
  decide!

/-- C9 (amended): the LTV:CAC cell is LTV divided by CAC; it is the
undefined sentinel whenever CAC or LTV is the sentinel, and the quotient
number when CAC is a nonzero number; but when CAC is the number 0 the
division is still performed, producing positive infinity for a positive LTV
rather than the sentinel. -/
theorem C9_ltv_cac_amended (cfg : Config) (y : ℕ) :
    (blendedCacYear cfg y = none → ltvOverCacYear cfg y = FV.nan) ∧
    (∀ c : ℚ, blendedCacYear cfg y = some c → ltvYear cfg y = none →
      ltvOverCacYear cfg y = FV.nan) ∧
    (∀ c l : ℚ, blendedCacYear cfg y = some c → c ≠ 0 → ltvYear cfg y = some l →
      ltvOverCacYear cfg y = FV.num (l / c)) ∧
    (∀ l : ℚ, blendedCacYear cfg y = some 0 → ltvYear cfg y = some l → 0 < l →
      ltvOverCacYear cfg y = FV.posInf) := by
  refine ⟨?_, ?_, ?_, ?_⟩
  · intro h
    simp [ltvOverCacYear, h]
  · intro c hc hl
    simp [ltvOverCacYear, hc, hl, fdivOpt]
  · intro c l hc hne hl
    simp [ltvOverCacYear, hc, hl, fdivOpt, hne]
  · intro l h0 hl hpos
    simp [ltvOverCacYear, h0, hl, fdivOpt, hpos]

/-- C9 (witness): on the all-zero configuration CAC is the sentinel and the
theorem yields a sentinel LTV:CAC cell. -/
theorem C9_witness :
    blendedCacYear zeroConfig 0 = none ∧ ltvOverCacYear zeroConfig 0 = FV.nan := by
  have h : blendedCacYear zeroConfig 0 = none := by decide!
  exact ⟨h, (C9_ltv_cac_amended zeroConfig 0).1 h⟩

/-- C9 (counterexample): on `cfgC9` the first-year CAC is the number 0 (zero
marketing spend over 144 first-time conversions) and the LTV:CAC cell is
positive infinity, not the undefined sentinel the claim requires. -/
theorem C9_counterexample :
    blendedCacYear cfgC9 0 = some 0 ∧
    ltvOverCacYear cfgC9 0 = FV.posInf ∧
    ltvOverCacYear cfgC9 0 ≠ FV.nan := by
  decide!

theorem list_sum_map_add (l : List ℕ) (f g : ℕ → ℚ) :
    (l.map (fun a => f a + g a)).sum = (l.map f).sum + (l.map g).sum := by
  induction l with
  | nil => simp
  | cons a t ih =>
    simp only [List.map_cons, List.sum_cons, ih]
    ring

theorem grossProfit_components (cfg : Config) (m : ℕ) :
    (monthRow cfg m).grossProfit =
      (monthRow cfg m).revenuePro + (monthRow cfg m).revenueTeam +
      (monthRow cfg m).revenueEnterprise + (monthRow cfg m).revenueOneTime := by
  cases m with
  | zero => exact Eq.trans rfl (add_zero _)
  | succ k => cases k with
    | zero => exact Eq.trans rfl (add_zero _)
    | succ j => exact Eq.trans rfl (add_zero _)

/-- C10: COGS is zero, so the monthly Gross Profit cell equals the monthly
total revenue; and in a year whose marketplace revenue is zero and whose
total revenue is positive, the Gross Margin number is exactly 1 (this same
number is the gross-margin factor used by the LTV and CAC-payback cells). -/
theorem C10_gross_margin (cfg : Config) (m y : ℕ) :
    (monthRow cfg m).grossProfit = (monthRow cfg m).totalRevenue ∧
    (revenueMarketplaceYear cfg y = 0 → 0 < totalRevenueYear cfg y →
      grossMarginQ cfg y = 1) := by
  constructor
  · cases m with
    | zero => rfl
    | succ k => cases k with
      | zero => rfl
      | succ j => rfl
  · intro hmp hpos
    have htot : totalRevenueYear cfg y =
        revenueProYear cfg y + revenueTeamYear cfg y + revenueEnterpriseYear cfg y +
          revenueOneTimeYear cfg y := by
      unfold totalRevenueYear
      rw [hmp, add_zero]
    have hsum : grossProfitSumYear cfg y =
        revenueProYear cfg y + revenueTeamYear cfg y + revenueEnterpriseYear cfg y +
          revenueOneTimeYear cfg y := by
      unfold grossProfitSumYear revenueProYear revenueTeamYear revenueEnterpriseYear
        revenueOneTimeYear sumOverYear
      simp only [grossProfit_components]
      rw [list_sum_map_add (yearMonths y)
        (fun mm => (monthRow cfg mm).revenuePro + (monthRow cfg mm).revenueTeam +
          (monthRow cfg mm).revenueEnterprise) (fun mm => (monthRow cfg mm).revenueOneTime)]
      rw [list_sum_map_add (yearMonths y)
        (fun mm => (monthRow cfg mm).revenuePro + (monthRow cfg mm).revenueTeam)
        (fun mm => (monthRow cfg mm).revenueEnterprise)]
      rw [list_sum_map_add (yearMonths y)
        (fun mm => (monthRow cfg mm).revenuePro) (fun mm => (monthRow cfg mm).revenueTeam)]
    unfold grossMarginQ
    rw [if_pos hpos, hsum, htot]
    exact div_self (ne_of_gt (by rw [htot] at hpos; linarith))

/-- C10 (witness): on `cfgC10` the first year has zero marketplace revenue,
positive total revenue, and Gross Margin exactly 1. -/
theorem C10_witness :
    revenueMarketplaceYear cfgC10 0 = 0 ∧ 0 < totalRevenueYear cfgC10 0 ∧
    grossMarginQ cfgC10 0 = 1 := by
  have h1 : revenueMarketplaceYear cfgC10 0 = 0 := by decide!
  have h2 : 0 < totalRevenueYear cfgC10 0 := by decide!
  exact ⟨h1, h2, (C10_gross_margin cfgC10 1 0).2 h1 h2⟩
